import Mathlib

/-
Verification of the fastgen feature-resolution and template-mapping engine.

The development embeds, as executable Lean definitions:
  - the Python value / dict model needed to express truthiness-based tests
    (fastgen reads its context as a loosely typed string-keyed dict);
  - the feature catalog FEATURES (src/fastgen/core/config.py);
  - the resolver TemplateRenderer.get_template_mappings
    (src/fastgen/core/templates.py, lines 131-220);
  - the context builders: TemplateContext._build_base_context of
    src/fastgen/core/templates.py and the shadowing TemplateContext of
    src/fastgen/commands/new.py (which is the one ProjectGenerator uses,
    since it is defined after the import of the former);
  - the interactive feature loop TemplateContext.add_interactive_context of
    src/fastgen/commands/new.py;
  - the control flow of ProjectGenerator.create_project /
    _validate_project / _create_project_directory / _render_templates
    (src/fastgen/commands/new.py), with file-system effects recorded in an
    explicit trace.

Helpers that live in fastgen.core.utils (validate_project_name,
cleanup_project, write_file, create_directory_structure, create_init_files)
are not among the sources; they are modelled from the spec, and each such
definition carries a doc comment saying so.
-/

/-- Model of the Python values stored in the fastgen context dict: strings,
booleans, None, and the one nested string-to-string dict (DEFAULT_VERSIONS
stored under the key "versions"). -/
inductive PyVal where
  | vStr (s : String)
  | vBool (b : Bool)
  | vNone
  | vStrMap (entries : List (String × String))
deriving DecidableEq

/-- Python truthiness for the modelled values: a string is truthy iff
nonempty, a bool is itself, None is falsy, a dict is truthy iff nonempty. -/
def PyVal.truthy : PyVal → Bool
  | PyVal.vStr s => !(s == "")
  | PyVal.vBool b => b
  | PyVal.vNone => false
  | PyVal.vStrMap entries => !(entries == [])

/-- A Python dict with string keys, as an association list in insertion
order. All dicts built below have pairwise distinct keys, so lookup of the
first matching key agrees with Python dict lookup. -/
abbrev PyDict := List (String × PyVal)

/-- Model of dict.get(k): the value at the key, or Python None when the key
is absent. Absent keys and None are both falsy, which is all the resolver
observes, so Option is collapsed through truthiness below. -/
def pyGet (d : PyDict) (k : String) : Option PyVal := List.lookup k d

/-- Truthiness of a dict.get result: a missing key yields None, which is
falsy. -/
def truthyGet (d : PyDict) (k : String) : Bool :=
  match pyGet d k with
  | Option.none => false
  | Option.some v => v.truthy

/-- One entry of the FEATURES catalog of src/fastgen/core/config.py: every
entry carries the keys "question", "options" and "default"; none carries a
"type" key, which is recorded here as an Option that is none throughout. -/
structure FeatureConfig where
  question : String
  options : List String
  default : String
  type : Option String
deriving DecidableEq

/-- FEATURES from src/fastgen/core/config.py, in declaration order. -/
def FEATURES : List (String × FeatureConfig) :=
  [ ("include_database", ⟨"Do you want a database?", ["y", "n"], "n", Option.none⟩),
    ("include_auth", ⟨"Do you want authentication? (y/n)", ["y", "n"], "n", Option.none⟩),
    ("include_docker", ⟨"Do you want Docker support? (y/n)", ["y", "n"], "n", Option.none⟩),
    ("include_celery", ⟨"Do you want Celery for background tasks? (y/n)", ["y", "n"], "n", Option.none⟩),
    ("async_mode", ⟨"Do you want async or sync code?", ["async", "sync"], "async", Option.none⟩),
    ("include_loguru", ⟨"Do you want loguru configuration? (y/n)", ["y", "n"], "y", Option.none⟩) ]

/-- DEFAULT_VERSIONS from src/fastgen/core/config.py. -/
def DEFAULT_VERSIONS : List (String × String) :=
  [ ("fastapi", "0.104.1"), ("uvicorn", "0.24.0"), ("pydantic", "2.5.0"),
    ("sqlalchemy", "2.0.23"), ("alembic", "1.12.1"), ("asyncpg", "0.29.0"),
    ("passlib", "1.7.4"), ("python_jose", "3.3.0"), ("email_validator", "2.1.0"),
    ("celery", "5.3.4"), ("redis", "5.0.1"), ("loguru", "0.7.2") ]

/-- TemplateContext._to_slug of src/fastgen/core/templates.py (identical to
the inline slug expression of src/fastgen/commands/new.py, line 34):
name.lower().replace(" ", "_").replace("-", "_"). The Python calls are
single-character replacements after lowercasing, embedded as successive
character maps. -/
def to_slug (name : String) : String :=
  String.mk
    (((name.data.map Char.toLower).map
        (fun ch => if ch == ' ' then '_' else ch)).map
      (fun ch => if ch == '-' then '_' else ch))

/-- Python str.capitalize: first character uppercased, the rest lowercased. -/
def py_capitalize (w : List Char) : String :=
  match w with
  | [] => ""
  | ch :: rest => String.mk (ch.toUpper :: rest.map Char.toLower)

/-- TemplateContext._to_class_name of src/fastgen/core/templates.py:
"".join(word.capitalize() for word in
name.replace("-", " ").replace("_", " ").split()). Python str.split()
drops empty words, which the filter below reproduces. -/
def to_class_name (name : String) : String :=
  let replaced :=
    (name.data.map (fun ch => if ch == '-' then ' ' else ch)).map
      (fun ch => if ch == '_' then ' ' else ch)
  let words := (replaced.splitOn ' ').filter (fun w => !(w == []))
  String.join (words.map py_capitalize)

/-- TemplateContext._build_base_context of src/fastgen/core/templates.py
(lines 19-35): the defaults dict, in insertion order, ending with the
spread of DEFAULT_VERSIONS. -/
def build_base_context (project_name : String) : PyDict :=
  [ ("project_name", PyVal.vStr project_name),
    ("project_slug", PyVal.vStr (to_slug project_name)),
    ("project_class", PyVal.vStr (to_class_name project_name)),
    ("author", PyVal.vStr "Your Name"),
    ("email", PyVal.vStr "your.email@example.com"),
    ("version", PyVal.vStr "0.1.0"),
    ("description", PyVal.vStr ("FastAPI project: " ++ project_name)),
    ("is_async", PyVal.vBool true),
    ("include_database", PyVal.vBool false),
    ("database_type", PyVal.vNone),
    ("database_url", PyVal.vStr ""),
    ("versions", PyVal.vStrMap DEFAULT_VERSIONS) ]
  ++ DEFAULT_VERSIONS.map (fun kv => (kv.1, PyVal.vStr kv.2))

/-- The shadowing TemplateContext.__init__ of src/fastgen/commands/new.py
(lines 29-37): project_name, project_slug, then one entry per FEATURES key
holding the raw catalog default string. This class is defined after
the class fastgen.core.templates.TemplateContext has been imported, so
ProjectGenerator instantiates this one. -/
def newpy_init_context (project_name : String) : PyDict :=
  [ ("project_name", PyVal.vStr project_name),
    ("project_slug", PyVal.vStr (to_slug project_name)) ]
  ++ FEATURES.map (fun kv => (kv.1, PyVal.vStr kv.2.default))

/-- The truthiness observations get_template_mappings makes of a context
dict. The resolver of src/fastgen/core/templates.py reads the dict only
through context.get(key) in boolean position for seven keys and through the
one equality test context.get("database_type") == "postgresql", so this
record is a complete abstraction of the dict for mapping resolution. -/
structure Ctx where
  include_database : Bool
  include_auth : Bool
  include_docker : Bool
  include_tests : Bool
  include_loguru : Bool
  include_celery : Bool
  is_async : Bool
  database_type_is_postgresql : Bool
deriving DecidableEq

/-- Extraction of the resolver observations from a context dict. -/
def Ctx.ofDict (d : PyDict) : Ctx :=
  ⟨ truthyGet d "include_database",
    truthyGet d "include_auth",
    truthyGet d "include_docker",
    truthyGet d "include_tests",
    truthyGet d "include_loguru",
    truthyGet d "include_celery",
    truthyGet d "is_async",
    pyGet d "database_type" == Option.some (PyVal.vStr "postgresql") ⟩

/-- The base_templates list of get_template_mappings
(src/fastgen/core/templates.py, lines 138-147), always included. -/
def base_templates : List (String × String) :=
  [ ("base/main.py.jinja", "app/main.py"),
    ("base/config.py.jinja", "app/core/config.py"),
    ("base/README.md.jinja", "README.md"),
    ("base/.gitignore.jinja", ".gitignore"),
    ("base/__init__.py.jinja", "app/__init__.py"),
    ("base/pyproject.toml.jinja", "pyproject.toml"),
    ("base/api_v1__init__.py.jinja", "app/api/v1/__init__.py"),
    ("base/.env.jinja", "envs/.env.local") ]

/-- TemplateRenderer.get_template_mappings of src/fastgen/core/templates.py
(lines 131-220), over the truthiness abstraction of the context dict. The
source accumulates a dict in insertion order; every template path occurring
below is distinct (see get_template_mappings_keys_nodup), so the successive
dict updates are faithfully embedded as list concatenation. -/
def get_template_mappings (c : Ctx) : List (String × String) :=
  base_templates
  ++ (if c.include_database then
        [ ("base/database.py.jinja", "app/db/database.py"),
          ("base/models.py.jinja", "app/models/__init__.py"),
          ("base/schemas.py.jinja", "app/schemas/__init__.py") ]
      else [])
  ++ (if c.include_auth then
        [ ("base/auth.py.jinja", "app/auth/auth.py"),
          ("base/security.py.jinja", "app/core/security.py") ]
      else [])
  ++ (if c.include_docker then
        [ ("docker/docker-compose.yml.jinja", "docker-compose.yml"),
          ("docker/fastapi/entrypoint.sh.jinja", "docker/fastapi/entrypoint.sh"),
          ("docker/fastapi/start.sh.jinja", "docker/fastapi/start.sh"),
          ("docker/fastapi/Dockerfile", "docker/fastapi/Dockerfile") ]
        ++ (if c.include_database && c.database_type_is_postgresql then
              [ ("docker/postgres/Dockerfile.jinja", "docker/postgres/Dockerfile") ]
            else [])
      else [])
  ++ (if c.include_tests then
        [ ("base/test_main.py.jinja", "tests/test_main.py"),
          ("base/test.py.jinja", "tests/test.py") ]
      else [])
  ++ (if c.include_loguru then
        [ ("base/loguru.py.jinja", "app/core/logger.py") ]
      else [])
  ++ (if c.include_celery then
        [ ("celery/celery_app.py.jinja", "app/core/celery_app.py"),
          ("celery/tasks.py.jinja", "app/tasks/tasks.py"),
          ("celery/config.py.jinja", "app/tasks/email_config.py"),
          ("celery/email_base.py.jinja", "app/tasks/email_base.py") ]
        ++ (if c.include_docker then
              (if c.is_async then
                [ ("docker/fastapi/celery/async/worker/start.sh.jinja", "docker/fastapi/celery/worker/start.sh"),
                  ("docker/fastapi/celery/async/beat/start.sh.jinja", "docker/fastapi/celery/beat/start.sh"),
                  ("docker/fastapi/celery/async/flower/start.sh.jinja", "docker/fastapi/celery/flower/start.sh") ]
              else
                [ ("docker/fastapi/celery/sync/worker/start.sh.jinja", "docker/fastapi/celery/worker/start.sh"),
                  ("docker/fastapi/celery/sync/beat/start.sh.jinja", "docker/fastapi/celery/beat/start.sh"),
                  ("docker/fastapi/celery/sync/flower/start.sh.jinja", "docker/fastapi/celery/flower/start.sh") ])
            else [])
      else [])
  ++ (if c.is_async then
        [ ("async/async_db.py.jinja", "app/db/async_db.py") ]
      else
        [ ("sync/sync_db.py.jinja", "app/db/sync_db.py"),
          ("sync/session.py.jinja", "app/db/session.py"),
          ("sync/base.py.jinja", "app/db/base.py") ])

/-- Destination paths of a resolved mapping. -/
def mappingDests (c : Ctx) : List String := (get_template_mappings c).map Prod.snd

/-- Template source paths of a resolved mapping. -/
def mappingSrcs (c : Ctx) : List String := (get_template_mappings c).map Prod.fst

/-- The database-specific destinations that enabling the database feature
can contribute for a given setting of the remaining context: the three
always-added files of src/fastgen/core/templates.py lines 151-156, plus the
postgres Dockerfile of lines 175-176 when docker is enabled and the
database type is postgresql. -/
def database_specific_dests (c : Ctx) : List String :=
  [ "app/db/database.py", "app/models/__init__.py", "app/schemas/__init__.py" ]
  ++ (if c.include_docker && c.database_type_is_postgresql then
        [ "docker/postgres/Dockerfile" ]
      else [])

/-- The context with the database flag set to the given value and every
other observation unchanged. -/
def set_include_database (c : Ctx) (b : Bool) : Ctx :=
  ⟨ b, c.include_auth, c.include_docker, c.include_tests, c.include_loguru,
    c.include_celery, c.is_async, c.database_type_is_postgresql ⟩

/-- Modelled from the spec: validate_project_name lives in
fastgen.core.utils, which is not among the sources at hand; spec section
4.2 defines the rule (also echoed by the user-facing message in
src/fastgen/commands/new.py lines 153-154): the name starts with a letter
and the remaining characters are limited to letters, digits, hyphen and
underscore. -/
def validate_project_name (name : String) : Bool :=
  match name.data with
  | [] => false
  | ch :: rest =>
      ch.isAlpha &&
        rest.all (fun c => c.isAlpha || c.isDigit || c == '-' || c == '_')

/-- Outcome of one ProjectGenerator.create_project run
(src/fastgen/commands/new.py). The spec names the validation failure
NameValidationError; in the source it surfaces as a non-zero typer exit
raised at new.py line 155. overwriteDeclined is the exit raised at line
161 when the target directory exists and the user declines the overwrite
prompt; materializationError stands for any failure inside the progress
tasks of lines 130-140. -/
inductive Outcome where
  | success
  | nameValidationError
  | overwriteDeclined
  | materializationError
deriving DecidableEq

/-- Trace of the file-system effects of one create_project run.
preexistingDeletedByOverwriteFlow records the cleanup_project call of
new.py line 163 (the confirmed-overwrite flow); preexistingDeletedByErrorPath
records a deletion of the pre-existing target directory performed by the
except handler of new.py line 146; filesWritten lists the
(destination path, rendered content) pairs written by _render_templates. -/
structure FsTrace where
  preexistingDeletedByOverwriteFlow : Bool
  preexistingDeletedByErrorPath : Bool
  dirCreated : Bool
  createdDirDeletedByErrorPath : Bool
  filesWritten : List (String × String)
deriving DecidableEq

/-- ProjectGenerator._render_templates of src/fastgen/commands/new.py lines
168-172: for every (template, destination) pair of the resolved mapping,
render the template against the context and write the content at the
destination. The Jinja renderer is an external collaborator, passed in as
an abstract function. Modelled from the spec: write_file of
fastgen.core.utils is not among the sources; per spec section 4.5 it
writes the given content at the given path, creating parent directories. -/
def render_templates (render : String → Ctx → String) (c : Ctx) :
    List (String × String) :=
  (get_template_mappings c).map (fun tp => (tp.2, render tp.1 c))

/-- ProjectGenerator.create_project together with _validate_project and
_create_project_directory (src/fastgen/commands/new.py lines 103-172),
embedded over the mapping-relevant context abstraction with explicit
inputs for the ambient state: whether the target directory already exists,
the answer to the overwrite prompt, and whether rendering or writing fails.
The whole body runs inside try/except Exception (lines 105-147); typer.Exit
derives from Exception, so the exits raised by _validate_project are caught
by the handler at line 144, which calls cleanup_project(self.project_path)
unconditionally at line 146 before re-raising a non-zero exit.
Modelled from the spec: cleanup_project of fastgen.core.utils is not among
the sources; it deletes the target directory tree when it exists — the
confirmed-overwrite flow of new.py line 163 relies on exactly that
behaviour to remove a pre-existing directory, which the spec (section 4.5)
describes as the deletion performed by the caller in the overwrite flow.
Modelled from the spec: create_directory_structure and create_init_files of
fastgen.core.utils are not among the sources; per spec section 6 no files
outside the destinations of the resolved mapping are produced, so they are
embedded as creating directories only. collect_postgresql_config (referenced
at new.py line 111, absent from src/fastgen/core/config.py) only expands
database parameters in the context (spec section 4.2) and touches none of
the observations the resolver reads, so it does not appear in the trace. -/
def create_project (render : String → Ctx → String) (name : String)
    (targetDirPreexists userConfirmsOverwrite writeFails : Bool) (c : Ctx) :
    Outcome × FsTrace :=
  if !(validate_project_name name) then
    -- new.py lines 151-155: invalid name raises; the except handler at
    -- line 146 then runs cleanup_project, deleting the target directory
    -- tree when it already exists.
    (Outcome.nameValidationError, ⟨false, targetDirPreexists, false, false, []⟩)
  else if targetDirPreexists && !userConfirmsOverwrite then
    -- new.py lines 157-161: declined overwrite raises typer.Exit; the
    -- except handler at line 146 then runs cleanup_project on the
    -- pre-existing target directory.
    (Outcome.overwriteDeclined, ⟨false, true, false, false, []⟩)
  else if writeFails then
    -- overwrite flow (line 163) removed a pre-existing directory, mkdir
    -- (line 166) created the target, a task failed, and the handler
    -- removed the directory this run created.
    (Outcome.materializationError, ⟨targetDirPreexists, false, true, true, []⟩)
  else
    (Outcome.success,
      ⟨targetDirPreexists, false, true, false, render_templates render c⟩)

/-- Python exceptions surfaced by the interactive feature loop. -/
inductive PyError where
  | keyError (k : String)
deriving DecidableEq

/-- Dict assignment d[k] = v: replace the value when the key is present,
append the entry otherwise. -/
def pySet (d : PyDict) (k : String) (v : PyVal) : PyDict :=
  if (List.lookup k d).isSome then
    d.map (fun kv => if kv.1 == k then (k, v) else kv)
  else d ++ [(k, v)]

/-- One iteration of the feature loop of
TemplateContext.add_interactive_context in src/fastgen/commands/new.py
(lines 58-74): after the unused feature_config.get("type", "boolean") of
line 61, line 64 subscripts feature_config["type"] directly, which raises
KeyError when the catalog entry has no "type" key; otherwise the answer is
stored for the boolean and choice kinds and nothing happens for any other
kind (the if/elif chain has no else branch). -/
def apply_feature_answer (ctx : PyDict) (key : String) (cfg : FeatureConfig)
    (answer : PyVal) : Except PyError PyDict :=
  match cfg.type with
  | Option.none => Except.error (PyError.keyError "type")
  | Option.some t =>
      if t == "boolean" then Except.ok (pySet ctx key answer)
      else if t == "choice" then Except.ok (pySet ctx key answer)
      else Except.ok ctx

/-- TemplateContext.add_interactive_context of src/fastgen/commands/new.py
(lines 52-75): fold the feature loop over FEATURES in declaration order,
with the prompt answers supplied as an abstract function from feature key
to answer. -/
def add_interactive_context (ctx : PyDict) (answers : String → PyVal) :
    Except PyError PyDict :=
  FEATURES.foldlM (fun acc kv => apply_feature_answer acc kv.1 kv.2 (answers kv.1)) ctx

/-- The resolver observations of the defaults context that
fastgen.core.templates.TemplateContext builds for the project name
demo_app with no features enabled. -/
def demo_base_ctx : Ctx := Ctx.ofDict (build_base_context "demo_app")

/-- A concrete resolver context with the database and docker features
enabled whose database_type is not postgresql — reachable through the
interactive flow of src/fastgen/commands/new.py, which sets
include_database to a boolean at line 65 but never writes a
database_type key into its context. -/
def docker_db_not_postgres_ctx : Ctx :=
  ⟨true, false, true, false, false, false, true, false⟩

/-- A placeholder for the external Jinja renderer, used where a concrete
run has to be evaluated: it returns the template path itself. -/
def trivial_render : String → Ctx → String := fun tp _ => tp

/-- Mapping the destinations out of the written (destination, content)
pairs recovers exactly the destination column of the underlying list. -/
theorem map_fst_of_dest_content {α β γ : Type} (l : List (α × β)) (r : α → γ) :
    (l.map (fun tp => (tp.2, r tp.1))).map Prod.fst = l.map Prod.snd := by
  induction l with
  | nil => rfl
  | cons hd tl ih => simp [ih]

/-- In every resolved mapping the template paths are pairwise distinct, so
the Python dict accumulated by get_template_mappings never drops or
overwrites an entry and the association-list embedding is exact. -/
theorem get_template_mappings_keys_nodup :
    ∀ a b c d e f g h : Bool, (mappingSrcs ⟨a, b, c, d, e, f, g, h⟩).Nodup := by
  decide

/-- Claim C1: in every resolved mapping, the asynchronous data-access
destination (app/db/async_db.py) and the synchronous ones
(app/db/sync_db.py, app/db/session.py, app/db/base.py) are never
simultaneously present, and the async and sync celery start-script
template sources are never selected together. -/
theorem sync_async_sets_mutually_exclusive :
    ∀ a b c d e f g h : Bool,
      (¬ ("app/db/async_db.py" ∈ mappingDests ⟨a, b, c, d, e, f, g, h⟩ ∧
          ("app/db/sync_db.py" ∈ mappingDests ⟨a, b, c, d, e, f, g, h⟩ ∨
           "app/db/session.py" ∈ mappingDests ⟨a, b, c, d, e, f, g, h⟩ ∨
           "app/db/base.py" ∈ mappingDests ⟨a, b, c, d, e, f, g, h⟩))) ∧
      (¬ ("docker/fastapi/celery/async/worker/start.sh.jinja" ∈ mappingSrcs ⟨a, b, c, d, e, f, g, h⟩ ∧
          "docker/fastapi/celery/sync/worker/start.sh.jinja" ∈ mappingSrcs ⟨a, b, c, d, e, f, g, h⟩)) ∧
      (¬ ("docker/fastapi/celery/async/beat/start.sh.jinja" ∈ mappingSrcs ⟨a, b, c, d, e, f, g, h⟩ ∧
          "docker/fastapi/celery/sync/beat/start.sh.jinja" ∈ mappingSrcs ⟨a, b, c, d, e, f, g, h⟩)) ∧
      (¬ ("docker/fastapi/celery/async/flower/start.sh.jinja" ∈ mappingSrcs ⟨a, b, c, d, e, f, g, h⟩ ∧
          "docker/fastapi/celery/sync/flower/start.sh.jinja" ∈ mappingSrcs ⟨a, b, c, d, e, f, g, h⟩)) := by
  decide

/-- Claim C2, counterexample: a resolved context with the database and
docker features both enabled whose database_type is not postgresql (as the
interactive flow of src/fastgen/commands/new.py produces, since it never
sets a database_type key) does not receive the postgres Dockerfile, so the
difference between the database-enabled and database-disabled mappings
does not contain it even though docker is enabled. -/
theorem docker_db_without_postgres_type_lacks_pg_dockerfile :
    docker_db_not_postgres_ctx.include_database = true ∧
    docker_db_not_postgres_ctx.include_docker = true ∧
    "docker/postgres/Dockerfile" ∉ mappingDests docker_db_not_postgres_ctx := by
  decide

/-- Claim C2 as amended: for every context, the database-enabled mapping
is a strict superset of the database-disabled one and the difference is
exactly the database-specific destinations — the three database files
always, plus the postgres Dockerfile when docker is enabled AND the
database type is postgresql; with the database feature disabled none of
those destinations appears. -/
theorem database_feature_superset_of_db_disabled :
    ∀ a b c d e f g h : Bool,
      (∀ x ∈ mappingDests (set_include_database ⟨a, b, c, d, e, f, g, h⟩ true),
          x ∈ mappingDests (set_include_database ⟨a, b, c, d, e, f, g, h⟩ false) ∨
          x ∈ database_specific_dests ⟨a, b, c, d, e, f, g, h⟩) ∧
      (∀ x ∈ mappingDests (set_include_database ⟨a, b, c, d, e, f, g, h⟩ false),
          x ∈ mappingDests (set_include_database ⟨a, b, c, d, e, f, g, h⟩ true)) ∧
      (∀ x ∈ database_specific_dests ⟨a, b, c, d, e, f, g, h⟩,
          x ∈ mappingDests (set_include_database ⟨a, b, c, d, e, f, g, h⟩ true) ∧
          x ∉ mappingDests (set_include_database ⟨a, b, c, d, e, f, g, h⟩ false)) ∧
      database_specific_dests ⟨a, b, c, d, e, f, g, h⟩ ≠ [] := by
  decide

/-- Claim C3: for every context, the celery docker start-script
destinations are present iff both the celery flag and the docker flag are
true, and the postgres Dockerfile destination is present iff the docker
flag, the database flag and the postgresql database type all hold. -/
theorem combination_rules_characterized :
    ∀ a b c d e f g h : Bool,
      ("docker/fastapi/celery/worker/start.sh" ∈ mappingDests ⟨a, b, c, d, e, f, g, h⟩ ↔
        (f = true ∧ c = true)) ∧
      ("docker/fastapi/celery/beat/start.sh" ∈ mappingDests ⟨a, b, c, d, e, f, g, h⟩ ↔
        (f = true ∧ c = true)) ∧
      ("docker/fastapi/celery/flower/start.sh" ∈ mappingDests ⟨a, b, c, d, e, f, g, h⟩ ↔
        (f = true ∧ c = true)) ∧
      ("docker/postgres/Dockerfile" ∈ mappingDests ⟨a, b, c, d, e, f, g, h⟩ ↔
        (c = true ∧ a = true ∧ h = true)) := by
  decide

/-- Claim C4: for every feature-flag combination the destination paths of
the resolved mapping are pairwise distinct — no two rules of one resolved
mapping ever target the same destination, so the documented-overwrite and
conflict-error clauses are never exercised. -/
theorem resolved_destinations_pairwise_distinct :
    ∀ a b c d e f g h : Bool, (mappingDests ⟨a, b, c, d, e, f, g, h⟩).Nodup := by
  decide

/-- Claim C5, evaluated at the failing input: the name My Project! is
rejected by name validation as the claim states, but when the target
directory already exists the run is not mutation-free — the except handler
of src/fastgen/commands/new.py line 146 catches the validation exit and
cleanup_project deletes the pre-existing target directory tree. -/
theorem invalid_name_run_rejects_and_deletes_preexisting :
    validate_project_name "My Project!" = false ∧
    create_project trivial_render "My Project!" true true false demo_base_ctx =
      (Outcome.nameValidationError, ⟨false, true, false, false, []⟩) := by
  exact ⟨by decide, by decide⟩

/-- Claim C6, counterexample: the resolved mapping for demo_app with no
features enabled is not the base template set alone — the async data-access
template is always appended because is_async defaults to true in the base
context of src/fastgen/core/templates.py. -/
theorem defaults_off_mapping_not_base_only :
    ("async/async_db.py.jinja", "app/db/async_db.py") ∈ get_template_mappings demo_base_ctx ∧
    ("async/async_db.py.jinja", "app/db/async_db.py") ∉ base_templates := by
  decide

/-- Claim C6 as amended: for demo_app with no features enabled the
resolved mapping is the 8-entry base template set plus exactly one
data-access template, the async one (is_async defaults to true), for 9
entries in total. -/
theorem defaults_off_mapping_base_plus_async :
    get_template_mappings demo_base_ctx =
      base_templates ++ [("async/async_db.py.jinja", "app/db/async_db.py")] ∧
    base_templates.length = 8 := by
  exact ⟨rfl, rfl⟩

/-- Claim C7, evaluated at the failing input: a valid name with a
pre-existing target directory and a declined overwrite prompt. The decline
raises typer.Exit, the except handler of src/fastgen/commands/new.py line
146 catches it, and cleanup_project deletes the pre-existing directory the
user had just declined to overwrite — the rollback path deletes a
directory this run did not create. -/
theorem declined_overwrite_deletes_preexisting_dir :
    create_project trivial_render "demo_app" true false false demo_base_ctx =
      (Outcome.overwriteDeclined, ⟨false, true, false, false, []⟩) := by
  decide

/-- Claim C8: for every renderer and every context, a successful run into
a fresh target directory writes exactly the destination paths of the
resolved mapping, each carrying its rendered content, and nothing else. -/
theorem success_writes_exactly_mapping_destinations :
    ∀ (render : String → Ctx → String) (a b c d e f g h : Bool),
      (create_project render "demo_app" false true false ⟨a, b, c, d, e, f, g, h⟩).1 =
        Outcome.success ∧
      ((create_project render "demo_app" false true false ⟨a, b, c, d, e, f, g, h⟩).2.filesWritten).map Prod.fst =
        mappingDests ⟨a, b, c, d, e, f, g, h⟩ ∧
      (create_project render "demo_app" false true false ⟨a, b, c, d, e, f, g, h⟩).2.filesWritten =
        (get_template_mappings ⟨a, b, c, d, e, f, g, h⟩).map
          (fun tp => (tp.2, render tp.1 ⟨a, b, c, d, e, f, g, h⟩)) := by
  intro render a b c d e f g h
  refine ⟨rfl, ?_, rfl⟩
  exact map_fst_of_dest_content (get_template_mappings ⟨a, b, c, d, e, f, g, h⟩)
    (fun x => render x ⟨a, b, c, d, e, f, g, h⟩)

/-- Claim C9: for every project name, the defaults-only context built by
the shadowing TemplateContext of src/fastgen/commands/new.py stores the
raw catalog default strings, which are all truthy, so the resolver sees
the database, auth, docker, celery and loguru flags as enabled and, since
the key is_async is absent from that context, selects the synchronous
data-access set (and the sync celery scripts); database_type is also
absent, so the postgres Dockerfile is not added. -/
theorem noninteractive_defaults_mapping_truthy_strings :
    ∀ name : String,
      Ctx.ofDict (newpy_init_context name) =
        ⟨true, true, true, false, true, true, false, false⟩ ∧
      get_template_mappings (Ctx.ofDict (newpy_init_context name)) =
        [ ("base/main.py.jinja", "app/main.py"),
          ("base/config.py.jinja", "app/core/config.py"),
          ("base/README.md.jinja", "README.md"),
          ("base/.gitignore.jinja", ".gitignore"),
          ("base/__init__.py.jinja", "app/__init__.py"),
          ("base/pyproject.toml.jinja", "pyproject.toml"),
          ("base/api_v1__init__.py.jinja", "app/api/v1/__init__.py"),
          ("base/.env.jinja", "envs/.env.local"),
          ("base/database.py.jinja", "app/db/database.py"),
          ("base/models.py.jinja", "app/models/__init__.py"),
          ("base/schemas.py.jinja", "app/schemas/__init__.py"),
          ("base/auth.py.jinja", "app/auth/auth.py"),
          ("base/security.py.jinja", "app/core/security.py"),
          ("docker/docker-compose.yml.jinja", "docker-compose.yml"),
          ("docker/fastapi/entrypoint.sh.jinja", "docker/fastapi/entrypoint.sh"),
          ("docker/fastapi/start.sh.jinja", "docker/fastapi/start.sh"),
          ("docker/fastapi/Dockerfile", "docker/fastapi/Dockerfile"),
          ("base/loguru.py.jinja", "app/core/logger.py"),
          ("celery/celery_app.py.jinja", "app/core/celery_app.py"),
          ("celery/tasks.py.jinja", "app/tasks/tasks.py"),
          ("celery/config.py.jinja", "app/tasks/email_config.py"),
          ("celery/email_base.py.jinja", "app/tasks/email_base.py"),
          ("docker/fastapi/celery/sync/worker/start.sh.jinja", "docker/fastapi/celery/worker/start.sh"),
          ("docker/fastapi/celery/sync/beat/start.sh.jinja", "docker/fastapi/celery/beat/start.sh"),
          ("docker/fastapi/celery/sync/flower/start.sh.jinja", "docker/fastapi/celery/flower/start.sh"),
          ("sync/sync_db.py.jinja", "app/db/sync_db.py"),
          ("sync/session.py.jinja", "app/db/session.py"),
          ("sync/base.py.jinja", "app/db/base.py") ] := by
  intro name
  exact ⟨rfl, rfl⟩

/-- Claim C10: for every project name and every assignment of prompt
answers, the interactive feature loop of src/fastgen/commands/new.py
raises KeyError on the key type at the first catalog entry, because no
FEATURES entry carries a type key and the loop subscripts it unguarded, so
no feature answer is ever applied to the context. -/
theorem interactive_feature_loop_raises_keyerror :
    ∀ (name : String) (answers : String → PyVal),
      add_interactive_context (newpy_init_context name) answers =
        Except.error (PyError.keyError "type") := by
  intro name answers
  rfl
